import Mathlib

/-!
Verification of the RAPHS data-harmonization and periodogram core.

This file gives a shallow embedding of the two subsystems of the RAPHS
repository that the specification covers:

* `raphs/stardata.py` — catalog resolution (`StarData._load_catalog_entry`),
  per-instrument segment splitting and series combination
  (`StarData._combine_rvs`, `StarData._combine_S_indexes`) and the
  constructor control flow (`StarData.__init__`);
* `raphs/periodogram.py` — the frequency-grid construction of
  `LSPeriodogram.compute_lsps` and the empirical false-alarm-probability
  calibration `LSPeriodogram.compute_fap_thresh`;
* `raphs/utilities.py` — `convert_rhkp_to_sindex`.

Modelling conventions:

* pandas DataFrames are lists of `(label, row)` pairs, where `label : ℕ`
  models the pandas index label of the row.  `DataFrame.drop(idx)` drops by
  label, which is modelled exactly (a dropped label removes every row that
  carries it).  `reset_index(drop=True)` renumbers labels `0..n-1`.
* Float columns are modelled as exact rationals `ℚ`; the transcendental
  parts of the FAP fit (log10, ln, exp) are modelled over `ℝ`.
* The instrument/segment label column `tel` holds one of the four fixed
  strings "harps_pre", "harps_post", "hires_pre", "hires_post"; it is
  modelled by the closed inductive type `Tel`, ordered as `np.unique`
  sorts the corresponding strings.
* External library collaborators that the spec treats as out of scope are
  parameters: `astropy.timeseries.LombScargle(...).power` (parameters
  `lsP`, `lsW` of `compute_lsps`), `radvel.utils.bintels` (parameters
  `binRv`, `binSind` of `StarData.init`) and the real-valued activity
  conversion as used inside `_combine_S_indexes` (parameter `sconv`;
  the conversion function itself is embedded separately over `ℝ` as
  `convert_rhkp_to_sindex`).
* Python exceptions are modelled by `Except Err`; an exception that the
  Python code catches and suppresses corresponds to a branch that returns
  `.ok` with the state the suppression leaves behind.
* `int(0.5*n)` and `int(0.95*n)` in the slice of `compute_fap_thresh`
  are modelled as the exact `n / 2` and `19 * n / 20` (natural division);
  the concrete inputs used below are ones where the float computation
  agrees with the exact one.
-/

namespace Raphs

/-- Python exceptions raised (or crashes hit) by the embedded code.
`resolution` is the ValueError of `_load_catalog_entry`, `emptyRv` and
`emptySind` the ValueErrors of `_combine_rvs` / `_combine_S_indexes`,
`noneType` the TypeError of subscripting `None`, `indexError` the crash of
`power_crop[0]` on an empty slice, `fitError` the failure of `np.polyfit`
on an empty point set. -/
inductive Err
  | resolution
  | emptyRv
  | emptySind
  | noneType
  | indexError
  | fitError
  deriving DecidableEq, Repr

/-- The closed set of instrument/epoch segment labels stamped into the
`tel` column by `_combine_rvs` and `_combine_S_indexes`. -/
inductive Tel
  | harps_pre
  | harps_post
  | hires_pre
  | hires_post
  deriving DecidableEq, Repr, Inhabited

/-- Position of each segment label in the alphabetical order of the
source strings ("harps_post" < "harps_pre" < "hires_post" < "hires_pre"),
which is the order `np.unique` returns. -/
def Tel.rank : Tel → ℕ
  | .harps_post => 0
  | .harps_pre => 1
  | .hires_post => 2
  | .hires_pre => 3

/-- One row of the SPORES catalog, restricted to the fields the code
reads: the primary 'HD' designation, the alternate designations, the
'B-V' color and the spectral type string 'SpT'. -/
structure CatRow where
  HD : String
  GJ : String
  HIP : String
  Tycho2 : String
  BV : ℚ
  SpT : String
  deriving DecidableEq, Repr, Inhabited

/-- One row of a HARPS RVBank archive file (columns read by the code). -/
structure HarpsRow where
  BJD : ℚ
  RV_mlc_nzp : ℚ
  e_RV_mlc_nzp : ℚ
  RHKp : ℚ
  deriving DecidableEq, Repr, Inhabited

/-- One row of a Keck/HIRES EBPS archive file (columns read by the code). -/
structure HiresRow where
  JD : ℚ
  RVel : ℚ
  e_RVel : ℚ
  S_value : ℚ
  deriving DecidableEq, Repr, Inhabited

/-- One row of the combined RV DataFrame (columns jd, mnvel, errvel, tel). -/
structure RvRow where
  jd : ℚ
  mnvel : ℚ
  errvel : ℚ
  tel : Tel
  deriving DecidableEq, Repr, Inhabited

/-- One row of the combined S-index DataFrame (columns jd, sind, errs, tel). -/
structure SindRow where
  jd : ℚ
  sind : ℚ
  errs : ℚ
  tel : Tel
  deriving DecidableEq, Repr, Inhabited

/-- A pandas DataFrame of HARPS rows: list of (index label, row). -/
abbrev HarpsDf := List (ℕ × HarpsRow)

/-- A pandas DataFrame of HIRES rows: list of (index label, row). -/
abbrev HiresDf := List (ℕ × HiresRow)

/-- The combined RV DataFrame. -/
abbrev RvDf := List (ℕ × RvRow)

/-- The combined S-index DataFrame. -/
abbrev SindDf := List (ℕ × SindRow)

/-- `self.harps_df['BJD'] <= 2_457_163` — HARPS pre-upgrade mask
(Trifonov et al. 2020). -/
def harps_pre_rows (df : HarpsDf) : HarpsDf :=
  df.filter (fun p => p.2.BJD ≤ 2457163)

/-- `self.harps_df['BJD'] >= 2_457_173` — HARPS post-upgrade mask. -/
def harps_post_rows (df : HarpsDf) : HarpsDf :=
  df.filter (fun p => 2457173 ≤ p.2.BJD)

/-- `self.hires_df['JD'] <= 2_453_236` — HIRES pre-upgrade mask. -/
def hires_pre_rows (df : HiresDf) : HiresDf :=
  df.filter (fun p => p.2.JD ≤ 2453236)

/-- `self.hires_df['JD'] >= 2_453_236` — HIRES post-upgrade mask. -/
def hires_post_rows (df : HiresDf) : HiresDf :=
  df.filter (fun p => 2453236 ≤ p.2.JD)

/-- The concatenation step of `StarData._combine_rvs`: for each loaded
instrument, select the pre/post segment rows, rename the columns to
(jd, mnvel, errvel), stamp the `tel` label, and concatenate.  `pd.concat`
keeps the original index labels. -/
def rv_concat (harps : Option HarpsDf) (hires : Option HiresDf) : RvDf :=
  (match harps with
    | none => []
    | some h =>
      (harps_pre_rows h).map
        (fun p => (p.1, RvRow.mk p.2.BJD p.2.RV_mlc_nzp p.2.e_RV_mlc_nzp Tel.harps_pre))
      ++ (harps_post_rows h).map
        (fun p => (p.1, RvRow.mk p.2.BJD p.2.RV_mlc_nzp p.2.e_RV_mlc_nzp Tel.harps_post)))
  ++ (match hires with
    | none => []
    | some h =>
      (hires_pre_rows h).map
        (fun p => (p.1, RvRow.mk p.2.JD p.2.RVel p.2.e_RVel Tel.hires_pre))
      ++ (hires_post_rows h).map
        (fun p => (p.1, RvRow.mk p.2.JD p.2.RVel p.2.e_RVel Tel.hires_post)))

/-- Single-pass outlier rejection of `_combine_rvs` / `_combine_S_indexes`:

    mean = df[col].mean(); std = df[col].std()
    df = df.drop(df[abs(df[col] - mean) > std * thr].index)

pandas `.std()` uses the sample standard deviation (ddof = 1) and is NaN
for fewer than two rows, in which case the `>` comparison is False and no
row is dropped; this is the `df.length ≤ 1` branch.  For `0 ≤ thr` and at
least two rows, `|v - mean| > thr * sqrt(ssq / (n-1))` is equivalent to
the square-free comparison `(v - mean)^2 * (n-1) > thr^2 * ssq` used here.
`.drop` removes every row whose *label* is a flagged label. -/
def reject_outliers {α : Type} (val : α → ℚ) (df : List (ℕ × α)) (thr : ℚ) :
    List (ℕ × α) :=
  if df.length ≤ 1 then df
  else
    let n : ℚ := df.length
    let mean := (df.map (fun p => val p.2)).sum / n
    let ssq := (df.map (fun p => (val p.2 - mean) ^ 2)).sum
    let bad := (df.filter (fun p => (val p.2 - mean) ^ 2 * (n - 1) > thr ^ 2 * ssq)).map Prod.fst
    df.filter (fun p => ¬ p.1 ∈ bad)

instance sortKeyDecidable {α : Type} (key : α → ℚ) :
    DecidableRel (fun a b : ℕ × α => key a.2 ≤ key b.2) :=
  fun a b => inferInstanceAs (Decidable (key a.2 ≤ key b.2))

instance sortKeyTotal {α : Type} (key : α → ℚ) :
    IsTotal (ℕ × α) (fun a b => key a.2 ≤ key b.2) :=
  ⟨fun a b => le_total (key a.2) (key b.2)⟩

instance sortKeyTrans {α : Type} (key : α → ℚ) :
    IsTrans (ℕ × α) (fun a b => key a.2 ≤ key b.2) :=
  ⟨fun _ _ _ h1 h2 => le_trans h1 h2⟩

/-- `df.sort_values('jd')`: sort rows by the time column.  (pandas uses an
unstable quicksort; only the resulting key order is relevant.) -/
def sort_by_jd {α : Type} (key : α → ℚ) (df : List (ℕ × α)) : List (ℕ × α) :=
  List.insertionSort (fun a b => key a.2 ≤ key b.2) df

/-- `df.reset_index(drop=True)`: renumber the index labels 0..n-1,
keeping the rows in order. -/
def reset_index {α : Type} (df : List (ℕ × α)) : List (ℕ × α) :=
  (List.range df.length).zip (df.map Prod.snd)

/-- `StarData._combine_rvs`: concatenate the per-instrument segments; if
the result is non-empty, reject outliers on `mnvel`, sort by `jd` and
reset the index, otherwise raise `ValueError('WARNING: No RV data!')`. -/
def combine_rvs (harps : Option HarpsDf) (hires : Option HiresDf) (thr : ℚ) :
    Except Err RvDf :=
  if 0 < (rv_concat harps hires).length then
    .ok (reset_index (sort_by_jd RvRow.jd
      (reject_outliers RvRow.mnvel (rv_concat harps hires) thr)))
  else .error .emptyRv

/-- Substring test for the two-character pattern "IV", modelling the
Python expression `'IV' in spt`. -/
def hasIV : List Char → Bool
  | 'I' :: 'V' :: _ => true
  | _ :: rest => hasIV rest
  | [] => false

/-- `subgiant = ('IV' in self.catalog_entry['SpT'])`. -/
def subgiant_of (spt : String) : Bool := hasIV spt.data

/-- The concatenation step of `StarData._combine_S_indexes`: HARPS rows
carry `sind = convert_rhkp_to_sindex(RHKp, bv_mag, subgiant)` (the
real-valued conversion entering through the parameter `sconv`) with the
fixed empirical uncertainties 0.007 (pre) / 0.006 (post); HIRES rows carry
the archive `S_value` with uncertainties 0.01 (pre) / 0.009 (post). -/
def sind_concat (sconv : ℚ → ℚ → Bool → ℚ) (harps : Option HarpsDf)
    (hires : Option HiresDf) (entry : CatRow) : SindDf :=
  let bv := entry.BV
  let sg := subgiant_of entry.SpT
  (match harps with
    | none => []
    | some h =>
      (harps_pre_rows h).map
        (fun p => (p.1, SindRow.mk p.2.BJD (sconv p.2.RHKp bv sg) 0.007 Tel.harps_pre))
      ++ (harps_post_rows h).map
        (fun p => (p.1, SindRow.mk p.2.BJD (sconv p.2.RHKp bv sg) 0.006 Tel.harps_post)))
  ++ (match hires with
    | none => []
    | some h =>
      (hires_pre_rows h).map
        (fun p => (p.1, SindRow.mk p.2.JD p.2.S_value 0.01 Tel.hires_pre))
      ++ (hires_post_rows h).map
        (fun p => (p.1, SindRow.mk p.2.JD p.2.S_value 0.009 Tel.hires_post)))

/-- `st_activity_data.drop(st_activity_data[st_activity_data['sind'] < 0].index)`
— remove rows with negative S-index, dropping by label. -/
def drop_negative_sinds (df : SindDf) : SindDf :=
  let bad := (df.filter (fun p => p.2.sind < 0)).map Prod.fst
  df.filter (fun p => ¬ p.1 ∈ bad)

/-- `StarData._combine_S_indexes`: concatenate the per-instrument
segments; if the result is non-empty, drop negative values, reject
outliers on `sind`, sort by `jd` and reset the index, otherwise raise
`ValueError('WARNING: No S-index data!')`.  Note the emptiness test is on
the *concatenated* series, before the negative-value and outlier drops. -/
def combine_S_indexes (sconv : ℚ → ℚ → Bool → ℚ) (harps : Option HarpsDf)
    (hires : Option HiresDf) (entry : CatRow) (thr : ℚ) : Except Err SindDf :=
  if 0 < (sind_concat sconv harps hires entry).length then
    .ok (reset_index (sort_by_jd SindRow.jd
      (reject_outliers SindRow.sind
        (drop_negative_sinds (sind_concat sconv harps hires entry)) thr)))
  else .error .emptySind

/-- `StarData._load_catalog_entry`:

    catalog_entry = self.catalog_df[self.catalog_df['HD'] == self.hd_name]
    if len(catalog_entry) == 0: raise ValueError(...)
    return catalog_entry.iloc[0].to_dict()

An empty match raises; otherwise the *first* matching row is returned. -/
def load_catalog_entry (catalog : List CatRow) (hd_name : String) :
    Except Err CatRow :=
  match catalog.filter (fun r => r.HD = hd_name) with
  | [] => .error .resolution
  | r :: _ => .ok r

/-- The attributes of a constructed `StarData` object.  An `Option` field
is `none` when the Python attribute is `None` or was never assigned
because an exception interrupted the `try` block. -/
structure StarData where
  hd_name : String
  catalog_entry : CatRow
  harps_df : Option HarpsDf
  hires_df : Option HiresDf
  rv_data : Option RvDf
  S_index_data : Option SindDf
  rv_data_bin : Option RvDf
  sind_data : Option SindDf
  sind_data_bin : Option SindDf
  deriving DecidableEq, Repr

/-- `StarData.__init__`: resolve the catalog entry (a resolution
ValueError is re-raised); the per-instrument loads arrive as `Option`s
because a FileNotFoundError is caught and suppressed; then

    self.rv_data = None
    self.S_index_data = None
    try:
        self.rv_data = self._combine_rvs()
        self.rv_data_bin = self._bin_rvs()
        self.sind_data = self._combine_S_indexes()
        self.sind_data_bin = self._bin_sinds()
    except ValueError as err:
        print(err); pass

so a combination ValueError is caught and suppressed, leaving the later
attributes unassigned, and `S_index_data` is never reassigned.  `binRv`
and `binSind` stand for the external `radvel.utils.bintels` binning. -/
def StarData.init (catalog : List CatRow) (hd_name : String)
    (harps : Option HarpsDf) (hires : Option HiresDf) (thr : ℚ)
    (sconv : ℚ → ℚ → Bool → ℚ) (binRv : RvDf → RvDf) (binSind : SindDf → SindDf) :
    Except Err StarData :=
  match load_catalog_entry catalog hd_name with
  | .error e => .error e
  | .ok entry =>
    match combine_rvs harps hires thr with
    | .error _ =>
      .ok (StarData.mk hd_name entry harps hires none none none none none)
    | .ok rvdf =>
      match combine_S_indexes sconv harps hires entry thr with
      | .error _ =>
        .ok (StarData.mk hd_name entry harps hires (some rvdf) none
          (some (binRv rvdf)) none none)
      | .ok sdf =>
        .ok (StarData.mk hd_name entry harps hires (some rvdf) none
          (some (binRv rvdf)) (some sdf) (some (binSind sdf)))

/-- `np.ptp(xs)` — peak-to-peak (max minus min) of a column. -/
def ptpQ (l : List ℚ) : ℚ :=
  match l with
  | [] => 0
  | x :: xs => xs.foldl max x - xs.foldl min x

/-- Number of points of `np.arange(start, stop, step)`:
`⌈(stop - start) / step⌉` when `start < stop` and `0 < step`
(computed through the numerator/denominator to stay kernel-friendly),
else 0. -/
def arange_len (start stop step : ℚ) : ℕ :=
  if start < stop ∧ 0 < step then
    let q := (stop - start) / step
    (q.num.toNat + q.den - 1) / q.den
  else 0

/-- `np.arange(start, stop, step)` over exact rationals. -/
def arangeQ (start stop step : ℚ) : List ℚ :=
  (List.range (arange_len start stop step)).map (fun i => start + (i : ℚ) * step)

/-- `np.unique(rv_data['tel'])` — the distinct segment labels, in the
sorted order `np.unique` returns. -/
def unique_tels (df : RvDf) : List Tel :=
  (List.insertionSort (fun a b : Tel => a.rank ≤ b.rank) (df.map (fun p => p.2.tel))).dedup

/-- One entry of `lsp_dict`: the frequency grid and the power arrays
computed on it.  The combined entry ('all') has no window function. -/
structure LspEntry where
  frequency : List ℚ
  rv_power : List ℚ
  sval_power : List ℚ
  windowfn_power : Option (List ℚ)
  deriving DecidableEq, Repr, Inhabited

/-- `LSPeriodogram.compute_lsps`:

    rvs = self.data.rv_data
    svals = self.data.S_index_data
    max_per = 1.5 * np.ptp(rvs['jd'])
    f = np.arange(1/max_per, 1/min_per, delta_f)
    ... combined entry ...
    for tel in self.tels:
        max_per = 1.5 * np.ptp(rvs.loc[rvs['tel'] == tel, 'jd'])
        f = np.arange(1/max_per, 1/min_per, delta_f)
        ... per-instrument entry ...

Every frequency grid is derived from the *RV* series (full series for the
combined entry, per-`tel` RV rows for the instrument entries) and shared
with the S-index power and the window function.  Subscripting a `None`
DataFrame raises a TypeError (`.error .noneType`): `rvs` is touched first
(line `np.ptp(rvs['jd'])`), then `svals` (line `svals['jd']`).  `lsP`
stands for `LombScargle(jd, val, err).power(f)` and `lsW` for the
window-function call `LombScargle(jd, ones, fit_mean=False,
center_data=False).power(f)`, both external astropy collaborators. -/
def compute_lsps (lsP : List (ℚ × ℚ × ℚ) → List ℚ → List ℚ)
    (lsW : List ℚ → List ℚ → List ℚ) (data : StarData) (min_per delta_f : ℚ) :
    Except Err (LspEntry × List (Tel × LspEntry)) :=
  match data.rv_data with
  | none => .error .noneType
  | some rvs =>
    match data.S_index_data with
    | none => .error .noneType
    | some svals =>
      let max_per := 1.5 * ptpQ (rvs.map (fun p => p.2.jd))
      let f := arangeQ (1 / max_per) (1 / min_per) delta_f
      let allEntry : LspEntry :=
        LspEntry.mk f
          (lsP (rvs.map (fun p => (p.2.jd, p.2.mnvel, p.2.errvel))) f)
          (lsP (svals.map (fun p => (p.2.jd, p.2.sind, p.2.errs))) f)
          none
      let perTel := (unique_tels rvs).map (fun tel =>
        let rvt := rvs.filter (fun p => p.2.tel = tel)
        let svt := svals.filter (fun p => p.2.tel = tel)
        let ft := arangeQ (1 / (1.5 * ptpQ (rvt.map (fun p => p.2.jd)))) (1 / min_per) delta_f
        (tel, LspEntry.mk ft
          (lsP (rvt.map (fun p => (p.2.jd, p.2.mnvel, p.2.errvel))) ft)
          (lsP (svt.map (fun p => (p.2.jd, p.2.sind, p.2.errs))) ft)
          (some (lsW (rvt.map (fun p => p.2.jd)) ft))))
      .ok (allEntry, perTel)

/-- `np.sort(power)` — the power array sorted ascending. -/
def power_sorted (power : List ℚ) : List ℚ :=
  List.insertionSort (fun a b : ℚ => a ≤ b) power

/-- `power_sorted[int(0.5*len) : int(0.95*len)]` — the 50th-to-95th
percentile slice of the sorted powers. -/
def power_crop (power : List ℚ) : List ℚ :=
  ((power_sorted power).drop (power.length / 2)).take
    (19 * power.length / 20 - power.length / 2)

/-- `power_med = power_crop[0]` — the first (lowest) value of the slice
(`0` stands for the IndexError crash on an empty slice, which
`compute_fap_thresh` checks before using this). -/
def power_med (power : List ℚ) : ℚ := (power_crop power).headD 0

/-- `power_crop - power_med` — the shifted data the histogram is built on. -/
def crop_hist_data (power : List ℚ) : List ℚ :=
  (power_crop power).map (fun x => x - power_med power)

/-- Bin edges of `np.histogram(data, bins=10)`: 11 equally spaced edges
from min to max; for constant data numpy expands the range to
(min - 0.5, max + 0.5). -/
def hist_edges (data : List ℚ) : List ℚ :=
  match data with
  | [] => []
  | x :: xs =>
    let lo := xs.foldl min x
    let hi := xs.foldl max x
    let lo' := if lo = hi then lo - 1/2 else lo
    let hi' := if lo = hi then hi + 1/2 else hi
    (List.range 11).map (fun i => lo' + (i : ℚ) * ((hi' - lo') / 10))

/-- The 10 bins of `np.histogram(data, bins=10)` as (left edge, right
edge) pairs of consecutive edges. -/
def hist_bins (data : List ℚ) : List (ℚ × ℚ) :=
  (hist_edges data).zip (hist_edges data).tail

/-- Bin counts of `np.histogram(data, bins=10)`: bin `i < 9` is the
half-open interval `[e_i, e_{i+1})`, the last bin (index 9) is closed. -/
def hist_counts (data : List ℚ) : List ℕ :=
  (hist_bins data).enum.map (fun q =>
    (data.filter (fun x => q.2.1 ≤ x ∧ (x < q.2.2 ∨ (q.1 = 9 ∧ x ≤ q.2.2)))).length)

/-- `centers = (edges[1:] + edges[:-1]) / 2`. -/
def hist_centers (data : List ℚ) : List ℚ :=
  (hist_bins data).map (fun q => (q.1 + q.2) / 2)

/-- The (center, count) pairs with non-zero count — exactly the points
whose `np.log10(hist)` is finite and therefore survive the
`np.isfinite(loghist)` mask. -/
def finite_bins (power : List ℚ) : List (ℚ × ℕ) :=
  ((hist_centers (crop_hist_data power)).zip (hist_counts (crop_hist_data power))).filter
    (fun p => 0 < p.2)

/-- The finite points `(centers[mask], log10(hist[mask]))` that
`np.polyfit` receives. -/
noncomputable def fit_points (power : List ℚ) : List (ℝ × ℝ) :=
  (finite_bins power).map (fun p => ((p.1 : ℝ), Real.logb 10 (p.2 : ℝ)))

/-- `np.polyfit(x, y, 1)` — degree-1 least squares.  With two or more
points this is the standard least-squares line; with exactly one point
the Vandermonde system is underdetermined and `numpy.linalg.lstsq`
returns the minimum-norm solution `(a, b) = (x*y, y) / (x^2 + 1)` (with a
RankWarning, which is not an exception); with no points it raises. -/
noncomputable def polyfit_deg1 (pts : List (ℝ × ℝ)) : Option (ℝ × ℝ) :=
  match pts with
  | [] => none
  | [(x, y)] => some (x * y / (x ^ 2 + 1), y / (x ^ 2 + 1))
  | _ =>
    let n : ℝ := pts.length
    let sx := (pts.map Prod.fst).sum
    let sy := (pts.map Prod.snd).sum
    let sxy := (pts.map (fun p => p.1 * p.2)).sum
    let sxx := (pts.map (fun p => p.1 ^ 2)).sum
    some ((n * sxy - sx * sy) / (n * sxx - sx ^ 2),
          (sy * sxx - sx * sxy) / (n * sxx - sx ^ 2))

/-- The fitted slope `a` of `a, b = np.polyfit(...)` (0 when the fit is
impossible; `compute_fap_thresh` errors before using it in that case). -/
noncomputable def slope_a (power : List ℚ) : ℝ :=
  ((polyfit_deg1 (fit_points power)).getD (0, 0)).1

/-- `A = -a*np.log(10)` — the exponential decay rate of the fitted tail. -/
noncomputable def fap_A (power : List ℚ) : ℝ :=
  -(slope_a power) * Real.log 10

/-- `power_sorted[-1]` — the maximum observed power. -/
def max_power (power : List ℚ) : ℚ := (power_sorted power).getLastD 0

/-- `LSPeriodogram.compute_fap_thresh(power, fap)`:

    power_sorted = np.sort(power)
    power_crop = power_sorted[int(0.5*len) : int(0.95*len)]
    power_med = power_crop[0]
    hist, edges = np.histogram(power_crop - power_med, bins=10)
    centers = (edges[1:] + edges[:-1]) / 2
    loghist = np.log10(hist)
    a, b = np.polyfit(centers[finite], loghist[finite], 1)
    A = -a*np.log(10)
    power_thresh = np.log(fap / len(power)) / (-A) + power_med
    fap_min = np.exp(-A * (power_sorted[-1] - power_med)) * len(power)
    return (power_thresh, fap_min)

(`B = 10**b` is computed in the source but never used.)  The crash on an
empty `power_crop` and the failure of an empty fit surface as errors. -/
noncomputable def compute_fap_thresh (power : List ℚ) (fap : ℝ) :
    Except Err (ℝ × ℝ) :=
  if power_crop power = [] then .error .indexError
  else
    match polyfit_deg1 (fit_points power) with
    | none => .error .fitError
    | some (a, _b) =>
      let A := -a * Real.log 10
      .ok (Real.log (fap / (power.length : ℝ)) / (-A) + (power_med power : ℝ),
           Real.exp (-A * ((max_power power : ℝ) - (power_med power : ℝ)))
             * (power.length : ℝ))

/-- The power-threshold component of `compute_fap_thresh` (0 on error),
for stating comparisons between thresholds at different FAP values. -/
noncomputable def power_thresh_at (power : List ℚ) (fap : ℝ) : ℝ :=
  match compute_fap_thresh power fap with
  | .ok (t, _) => t
  | .error _ => 0

/-- `convert_rhkp_to_sindex` from `raphs/utilities.py`, with the float
power `10**x` modelled by the real power `(10:ℝ) ^ x`. -/
noncomputable def convert_rhkp_to_sindex (rhkp : ℝ) (bv_mag : ℝ)
    (subgiant : Bool) : ℝ :=
  let ALPHA : ℝ := 1.34e-4
  let A : ℝ := -4.898
  let B : ℝ := 1.918
  let C : ℝ := -2.893
  let D : ℝ := if subgiant then -0.066 else 0.25
  let E : ℝ := if subgiant then -0.25 else -1.33
  let F : ℝ := if subgiant then -0.49 else 0.43
  let G : ℝ := if subgiant then 0.45 else 0.24
  let log_Rphot := A + B * bv_mag ^ 2 + C * bv_mag ^ 3
  let log_Ccf := D * bv_mag ^ 3 + E * bv_mag ^ 2 + F * bv_mag + G
  (rhkp + (10 : ℝ) ^ log_Rphot) / (ALPHA * (10 : ℝ) ^ log_Ccf)

/-! ### Shared auxiliary lemmas -/

theorem reset_index_length {α : Type} (df : List (ℕ × α)) :
    (reset_index df).length = df.length := by
  simp [reset_index]

theorem reset_index_fst {α : Type} (df : List (ℕ × α)) :
    (reset_index df).map Prod.fst = List.range df.length := by
  unfold reset_index
  exact List.map_fst_zip _ _ (by simp)

theorem reset_index_snd {α : Type} (df : List (ℕ × α)) :
    (reset_index df).map Prod.snd = df.map Prod.snd := by
  unfold reset_index
  exact List.map_snd_zip _ _ (by simp)

theorem sort_by_jd_sorted {α : Type} (key : α → ℚ) (df : List (ℕ × α)) :
    List.Pairwise (fun a b : ℕ × α => key a.2 ≤ key b.2) (sort_by_jd key df) :=
  List.sorted_insertionSort _ df

theorem reset_index_chain {α : Type} (key : α → ℚ) (df : List (ℕ × α))
    (h : List.Pairwise (fun a b : ℕ × α => key a.2 ≤ key b.2) df) :
    List.Chain' (fun a b : ℕ × α => key a.2 ≤ key b.2) (reset_index df) := by
  have hc : List.Chain' (fun a b : ℕ × α => key a.2 ≤ key b.2) df := h.chain'
  have h3 : List.Chain' (fun x y : α => key x ≤ key y) (df.map Prod.snd) :=
    (List.chain'_map Prod.snd).mpr hc
  have h4 : List.Chain' (fun x y : α => key x ≤ key y) ((reset_index df).map Prod.snd) := by
    rw [reset_index_snd]
    exact h3
  exact (List.chain'_map Prod.snd).mp h4

theorem arange_len_pos (start stop step : ℚ) (h1 : start < stop) (h2 : 0 < step) :
    0 < arange_len start stop step := by
  unfold arange_len
  rw [if_pos ⟨h1, h2⟩]
  have hq : 0 < (stop - start) / step := div_pos (by linarith) h2
  have hnum : 0 < ((stop - start) / step).num := Rat.num_pos.mpr hq
  have hden : 0 < ((stop - start) / step).den := ((stop - start) / step).den_pos
  have h3 : ((stop - start) / step).den ≤ ((stop - start) / step).num.toNat
      + ((stop - start) / step).den - 1 := by omega
  exact Nat.div_pos h3 hden

theorem arangeQ_head (start stop step : ℚ) (h1 : start < stop) (h2 : 0 < step) :
    (arangeQ start stop step).head? = some start := by
  unfold arangeQ
  obtain ⟨k, hk⟩ := Nat.exists_eq_add_of_lt (arange_len_pos start stop step h1 h2)
  rw [hk]
  rw [List.range_succ_eq_map]
  simp

theorem polyfit_some (pts : List (ℝ × ℝ)) (h : pts ≠ []) :
    ∃ ab : ℝ × ℝ, polyfit_deg1 pts = some ab := by
  match pts with
  | [] => exact absurd rfl h
  | [(x, y)] => exact ⟨_, rfl⟩
  | (x1, y1) :: (x2, y2) :: t => exact ⟨_, rfl⟩

theorem power_crop_ne_nil_of (power : List ℚ) (h : power_crop power ≠ []) :
    power ≠ [] := by
  intro hp
  apply h
  rw [hp]
  rfl

/-- The successful branch of `compute_fap_thresh`, spelled with the named
quantities of the pipeline (`fap_A`, `power_med`, `max_power`). -/
theorem compute_fap_thresh_ok (power : List ℚ) (fap : ℝ)
    (h1 : power_crop power ≠ []) (h2 : finite_bins power ≠ []) :
    compute_fap_thresh power fap =
      .ok (Real.log (fap / (power.length : ℝ)) / (-(fap_A power)) + (power_med power : ℝ),
           Real.exp (-(fap_A power) * ((max_power power : ℝ) - (power_med power : ℝ)))
             * (power.length : ℝ)) := by
  have hfp : fit_points power ≠ [] := by
    unfold fit_points
    simpa using h2
  obtain ⟨⟨a, b⟩, hab⟩ := polyfit_some _ hfp
  have hsl : slope_a power = a := by
    unfold slope_a
    rw [hab]
    simp
  unfold compute_fap_thresh
  rw [if_neg h1, hab, fap_A, hsl]

/-! ### Concrete data used by counterexamples and witnesses -/

/-- A catalog row with primary designation "HD 1" (main-sequence star). -/
def catA : CatRow := CatRow.mk "HD 1" "GJ 1" "HIP 1" "TYC 1" 1 "G2V"

/-- A second catalog row with the *same* primary designation "HD 1". -/
def catB : CatRow := CatRow.mk "HD 1" "GJ 2" "HIP 2" "TYC 2" 1 "G8IV"

/-- A concrete instantiation of the activity-conversion parameter. -/
def sconv_id : ℚ → ℚ → Bool → ℚ := fun r _ _ => r

/-- A HIRES archive whose single row has a negative S-index value. -/
def hires_neg : HiresDf := [(0, HiresRow.mk 1000 0 0 (-1))]

/-- A HIRES archive with one well-behaved row. -/
def hires_ok : HiresDf := [(0, HiresRow.mk 100 5 1 2)]

/-- A concrete instantiation of the Lomb-Scargle power parameter. -/
def lsZero : List (ℚ × ℚ × ℚ) → List ℚ → List ℚ := fun _ f => f.map (fun _ => 0)

/-- A concrete instantiation of the window-function power parameter. -/
def lsWZero : List ℚ → List ℚ → List ℚ := fun _ f => f.map (fun _ => 0)

/-- The state `StarData.__init__` produces for catalog `[catA]`, name
"HD 1", no HARPS archive and the single-row HIRES archive `hires_ok`. -/
def st3 : StarData :=
  StarData.mk "HD 1" catA none (some hires_ok)
    (some [(0, RvRow.mk 100 5 1 Tel.hires_pre)]) none
    (some [(0, RvRow.mk 100 5 1 Tel.hires_pre)])
    (some [(0, SindRow.mk 100 2 0.01 Tel.hires_pre)])
    (some [(0, SindRow.mk 100 2 0.01 Tel.hires_pre)])

/-! ### C1 — identifier resolution -/

/-- C1 counterexample: the claim says resolution fails with
`ResolutionError` when more than one catalog row matches the name, but on
a catalog with two rows whose 'HD' field is "HD 1" the code returns the
first row (`.iloc[0]`) instead of failing. -/
theorem c1_counterexample :
    (([catA, catB].filter (fun r => r.HD = "HD 1")).length = 2) ∧
    load_catalog_entry [catA, catB] "HD 1" = .ok catA ∧ catA ≠ catB := by
  refine ⟨by decide, rfl, by decide⟩

/-- C1 (amended): resolution returns the *first* matching catalog row
whenever at least one row's 'HD' field equals the name, and fails with
`ResolutionError` exactly when no row matches; uniqueness is not checked. -/
theorem c1_load_catalog_entry (catalog : List CatRow) (name : String) :
    (catalog.filter (fun r => r.HD = name) = [] →
      load_catalog_entry catalog name = .error .resolution) ∧
    (∀ r rest, catalog.filter (fun r => r.HD = name) = r :: rest →
      load_catalog_entry catalog name = .ok r) := by
  unfold load_catalog_entry
  constructor
  · intro h
    rw [h]
  · intro r rest h
    rw [h]

/-- C1 witness: the amended resolution behavior at concrete inputs. -/
theorem c1_load_catalog_entry_witness :
    load_catalog_entry [catA] "HD 1" = .ok catA ∧
    load_catalog_entry [catA] "HD 9" = .error .resolution :=
  ⟨(c1_load_catalog_entry [catA] "HD 1").2 catA [] (by decide),
   (c1_load_catalog_entry [catA] "HD 9").1 (by decide)⟩

/-! ### C2 — empty-series error behavior -/

/-- C2 counterexample: (i) a HIRES archive whose only row has a negative
S-index produces a combined activity series with zero rows after the
cleaning steps, yet `_combine_S_indexes` returns it without raising
(the emptiness test runs *before* the negative-value and outlier drops);
(ii) with no instrument data `_combine_rvs` does raise, but
`StarData.__init__` catches and suppresses the error, returning normally
with `rv_data`/`sind_data` left as `None`/unassigned, so the error never
reaches the caller. -/
theorem c2_counterexample :
    combine_S_indexes sconv_id none (some hires_neg) catA 5 = .ok [] ∧
    combine_rvs none none 5 = .error .emptyRv ∧
    StarData.init [catA] "HD 1" none none 5 sconv_id id id =
      .ok (StarData.mk "HD 1" catA none none none none none none none) :=
  ⟨rfl, rfl, rfl⟩

/-- C2 (amended): `_combine_S_indexes` raises the empty-series error
exactly when the *concatenated* series (before the negative-value and
outlier drops) is empty; a series emptied by the cleaning steps is
returned empty without error; and whenever catalog resolution succeeds,
`StarData.__init__` returns normally — a combination error is caught,
printed and suppressed inside the constructor instead of propagating. -/
theorem c2_empty_series (sconv : ℚ → ℚ → Bool → ℚ) (harps : Option HarpsDf)
    (hires : Option HiresDf) (entry : CatRow) (thr : ℚ) :
    (combine_S_indexes sconv harps hires entry thr = .error .emptySind ↔
      sind_concat sconv harps hires entry = []) ∧
    (∀ catalog hd binR binS e, load_catalog_entry catalog hd = .ok e →
      (StarData.init catalog hd harps hires thr sconv binR binS).toOption.isSome = true) := by
  constructor
  · unfold combine_S_indexes
    by_cases h : 0 < (sind_concat sconv harps hires entry).length
    · rw [if_pos h]
      simp only [reduceCtorEq, false_iff]
      exact List.length_pos.mp h
    · rw [if_neg h]
      have hnil : sind_concat sconv harps hires entry = [] :=
        List.length_eq_zero.mp (by omega)
      simp [hnil]
  · intro catalog hd binR binS e he
    unfold StarData.init
    rw [he]
    rcases hrv : combine_rvs harps hires thr with e1 | rvdf
    · simp [Except.toOption]
    · rcases hsi : combine_S_indexes sconv harps hires e thr with e2 | sdf <;>
        simp_all [Except.toOption]

/-- C2 witness: with resolution succeeding on the concrete catalog, the
constructor returns normally even though the RV combination raises. -/
theorem c2_empty_series_witness :
    (StarData.init [catA] "HD 1" none (some hires_neg) 5 sconv_id id id).toOption.isSome
      = true :=
  (c2_empty_series sconv_id none (some hires_neg) catA 5).2 [catA] "HD 1" id id catA rfl

/-! ### C3 — `S_index_data` is always `None` -/

/-- C3: for every `StarData` whose construction completes, the attribute
`S_index_data` equals `None` (the harmonized activity series is assigned
only to `sind_data`), and `compute_lsps` reads `data.S_index_data`, so
every periodogram computation hits the `None` and fails with the
TypeError of subscripting `None` instead of using the harmonized series. -/
theorem c3_S_index_data_none (catalog : List CatRow) (hd : String)
    (harps : Option HarpsDf) (hires : Option HiresDf) (thr : ℚ)
    (sconv : ℚ → ℚ → Bool → ℚ) (binRv : RvDf → RvDf) (binSind : SindDf → SindDf)
    (st : StarData)
    (h : StarData.init catalog hd harps hires thr sconv binRv binSind = .ok st) :
    st.S_index_data = none ∧
    (∀ rvdf sdf, combine_rvs harps hires thr = .ok rvdf →
      combine_S_indexes sconv harps hires st.catalog_entry thr = .ok sdf →
      st.sind_data = some sdf) ∧
    (∀ lsP lsW mp df, compute_lsps lsP lsW st mp df = .error .noneType) := by
  unfold StarData.init at h
  split at h
  · exact absurd h (by simp)
  · rename_i entry hld
    split at h
    · rename_i e1 hrv
      injection h with h'
      subst h'
      refine ⟨rfl, ?_, fun lsP lsW mp df => rfl⟩
      intro rvdf sdf hc _hs
      rw [hrv] at hc
      exact absurd hc (by simp)
    · rename_i rvdf hrv
      split at h
      · rename_i e2 hsi
        injection h with h'
        subst h'
        refine ⟨rfl, ?_, fun lsP lsW mp df => rfl⟩
        intro rvdf' sdf _hc hs
        have hs' : combine_S_indexes sconv harps hires entry thr = Except.ok sdf := hs
        rw [hsi] at hs'
        exact absurd hs' (by simp)
      · rename_i sdf0 hsi
        injection h with h'
        subst h'
        refine ⟨rfl, ?_, fun lsP lsW mp df => rfl⟩
        intro rvdf' sdf _hc hs
        have hs' : combine_S_indexes sconv harps hires entry thr = Except.ok sdf := hs
        rw [hsi] at hs'
        injection hs' with h2
        simp [h2]

/-- C3 witness: a fully successful construction on concrete data leaves
`S_index_data = none` while `sind_data` holds the harmonized series, and
the periodogram computation on that state fails with the `None`
TypeError. -/
theorem c3_S_index_data_none_witness :
    StarData.init [catA] "HD 1" none (some hires_ok) 5 sconv_id id id = .ok st3 ∧
    st3.S_index_data = none ∧
    st3.sind_data = some [(0, SindRow.mk 100 2 0.01 Tel.hires_pre)] ∧
    compute_lsps lsZero lsWZero st3 10 1 = .error .noneType :=
  ⟨rfl,
   (c3_S_index_data_none [catA] "HD 1" none (some hires_ok) 5 sconv_id id id st3 rfl).1,
   rfl,
   (c3_S_index_data_none [catA] "HD 1" none (some hires_ok) 5 sconv_id id id st3 rfl).2.2
     lsZero lsWZero 10 1⟩

/-! ### C9 — epoch-boundary splitting -/

/-- C9: rows are split by the instrument's fixed boundary into a pre
segment (rows at/before the boundary) and a post segment (rows at/after
the boundary), and the overlap/gap at the boundary is preserved exactly:
a HIRES row with time exactly 2453236 is stamped into both `hires_pre`
and `hires_post` in the concatenated RV series, and a HARPS row with
time strictly between 2457163 and 2457173 enters neither HARPS segment. -/
theorem c9_segment_boundaries (harps : HarpsDf) (hires : HiresDf)
    (rH : ℕ × HiresRow) (rA : ℕ × HarpsRow) :
    (rH ∈ hires → rH.2.JD = 2453236 →
      (rH.1, RvRow.mk rH.2.JD rH.2.RVel rH.2.e_RVel Tel.hires_pre)
          ∈ rv_concat harps (some hires) ∧
      (rH.1, RvRow.mk rH.2.JD rH.2.RVel rH.2.e_RVel Tel.hires_post)
          ∈ rv_concat harps (some hires)) ∧
    (rA ∈ harps → 2457163 < rA.2.BJD → rA.2.BJD < 2457173 →
      rA ∉ harps_pre_rows harps ∧ rA ∉ harps_post_rows harps) := by
  constructor
  · intro hmem hjd
    have hpre : rH ∈ hires_pre_rows hires := by
      rw [hires_pre_rows, List.mem_filter]
      exact ⟨hmem, by simp [hjd]⟩
    have hpost : rH ∈ hires_post_rows hires := by
      rw [hires_post_rows, List.mem_filter]
      exact ⟨hmem, by simp [hjd]⟩
    constructor
    · exact List.mem_append.mpr (Or.inr (List.mem_append.mpr
        (Or.inl (List.mem_map.mpr ⟨rH, hpre, rfl⟩))))
    · exact List.mem_append.mpr (Or.inr (List.mem_append.mpr
        (Or.inr (List.mem_map.mpr ⟨rH, hpost, rfl⟩))))
  · intro _hmem h1 h2
    constructor <;> intro hcon
    · rw [harps_pre_rows, List.mem_filter] at hcon
      have h3 := hcon.2
      simp only [decide_eq_true_eq] at h3
      linarith
    · rw [harps_post_rows, List.mem_filter] at hcon
      have h3 := hcon.2
      simp only [decide_eq_true_eq] at h3
      linarith

/-- A HIRES archive whose single row sits exactly on JD 2453236. -/
def hires9 : HiresDf := [(0, HiresRow.mk 2453236 1 1 1)]

/-- A HARPS archive whose single row sits strictly inside the
(2457163, 2457173) gap. -/
def harps9 : HarpsDf := [(0, HarpsRow.mk 2457168 0 1 0)]

/-- C9 witness: the boundary behavior at concrete rows. -/
theorem c9_segment_boundaries_witness :
    ((0, RvRow.mk 2453236 1 1 Tel.hires_pre) ∈ rv_concat (some harps9) (some hires9) ∧
     (0, RvRow.mk 2453236 1 1 Tel.hires_post) ∈ rv_concat (some harps9) (some hires9)) ∧
    ((0, HarpsRow.mk 2457168 0 1 0) ∉ harps_pre_rows harps9 ∧
     (0, HarpsRow.mk 2457168 0 1 0) ∉ harps_post_rows harps9) :=
  ⟨(c9_segment_boundaries harps9 hires9 (0, HiresRow.mk 2453236 1 1 1)
      (0, HarpsRow.mk 2457168 0 1 0)).1 (by simp [hires9]) rfl,
   (c9_segment_boundaries harps9 hires9 (0, HiresRow.mk 2453236 1 1 1)
      (0, HarpsRow.mk 2457168 0 1 0)).2 (by simp [harps9]) (by norm_num) (by norm_num)⟩

/-! ### C10 — sortedness and dense reindexing -/

/-- C10: whenever the RV or the activity combination succeeds, the output
series' time column is non-decreasing and its index labels are the dense
zero-based range 0..n-1. -/
theorem c10_sorted_reindexed (harps : Option HarpsDf) (hires : Option HiresDf)
    (thr : ℚ) (sconv : ℚ → ℚ → Bool → ℚ) (entry : CatRow) :
    (∀ df, combine_rvs harps hires thr = .ok df →
      List.Chain' (fun a b : ℕ × RvRow => a.2.jd ≤ b.2.jd) df ∧
      df.map Prod.fst = List.range df.length) ∧
    (∀ df, combine_S_indexes sconv harps hires entry thr = .ok df →
      List.Chain' (fun a b : ℕ × SindRow => a.2.jd ≤ b.2.jd) df ∧
      df.map Prod.fst = List.range df.length) := by
  constructor
  · intro df hdf
    unfold combine_rvs at hdf
    split at hdf
    · injection hdf with h'
      subst h'
      refine ⟨reset_index_chain RvRow.jd _ (sort_by_jd_sorted RvRow.jd _), ?_⟩
      rw [reset_index_fst, reset_index_length]
    · exact absurd hdf (by simp)
  · intro df hdf
    unfold combine_S_indexes at hdf
    split at hdf
    · injection hdf with h'
      subst h'
      refine ⟨reset_index_chain SindRow.jd _ (sort_by_jd_sorted SindRow.jd _), ?_⟩
      rw [reset_index_fst, reset_index_length]
    · exact absurd hdf (by simp)

/-- A HIRES archive with two unsorted rows. -/
def hires10 : HiresDf := [(0, HiresRow.mk 100 5 1 2), (1, HiresRow.mk 50 4 1 3)]

/-- C10 witness: both combinations on a concrete two-row archive come out
time-sorted with index labels 0..n-1. -/
theorem c10_sorted_reindexed_witness :
    (List.Chain' (fun a b : ℕ × RvRow => a.2.jd ≤ b.2.jd)
        [(0, RvRow.mk 50 4 1 Tel.hires_pre), (1, RvRow.mk 100 5 1 Tel.hires_pre)] ∧
      List.map Prod.fst
        [(0, RvRow.mk 50 4 1 Tel.hires_pre), (1, RvRow.mk 100 5 1 Tel.hires_pre)] =
        List.range 2) ∧
    (List.Chain' (fun a b : ℕ × SindRow => a.2.jd ≤ b.2.jd)
        [(0, SindRow.mk 50 3 0.01 Tel.hires_pre), (1, SindRow.mk 100 2 0.01 Tel.hires_pre)] ∧
      List.map Prod.fst
        [(0, SindRow.mk 50 3 0.01 Tel.hires_pre), (1, SindRow.mk 100 2 0.01 Tel.hires_pre)] =
        List.range 2) := by
  have hrv : combine_rvs none (some hires10) 5 =
      .ok [(0, RvRow.mk 50 4 1 Tel.hires_pre), (1, RvRow.mk 100 5 1 Tel.hires_pre)] := by
    norm_num [combine_rvs, rv_concat, hires_pre_rows, hires_post_rows, hires10,
      reject_outliers, sort_by_jd, reset_index, List.insertionSort, List.orderedInsert,
      List.filter, List.range_succ]
  have hsi : combine_S_indexes sconv_id none (some hires10) catA 5 =
      .ok [(0, SindRow.mk 50 3 0.01 Tel.hires_pre), (1, SindRow.mk 100 2 0.01 Tel.hires_pre)] := by
    norm_num [combine_S_indexes, sind_concat, hires_pre_rows, hires_post_rows, hires10,
      drop_negative_sinds, reject_outliers, sort_by_jd, reset_index, List.insertionSort,
      List.orderedInsert, List.filter, List.range_succ]
  have hfull := c10_sorted_reindexed none (some hires10) 5 sconv_id catA
  have h1 := hfull.1 _ hrv
  have h2 := hfull.2 _ hsi
  exact ⟨⟨h1.1, by simpa using h1.2⟩, ⟨h2.1, by simpa using h2.2⟩⟩

/-! ### C4 — frequency-grid baselines -/

/-- An RV series spanning jd 0..100 (baseline 100). -/
def rv4 : RvDf := [(0, RvRow.mk 0 0 1 Tel.hires_pre), (1, RvRow.mk 100 0 1 Tel.hires_pre)]

/-- An activity series spanning jd 0..50 (baseline 50, shorter than the
RV baseline). -/
def sv4 : SindDf := [(0, SindRow.mk 0 1 1 Tel.hires_pre), (1, SindRow.mk 50 1 1 Tel.hires_pre)]

/-- A star state carrying `rv4` and (for the purpose of exercising the
activity branch of `compute_lsps`) an activity series in `S_index_data`. -/
def st4 : StarData := StarData.mk "HD 4" catA none none (some rv4) (some sv4) none none none

/-- The periodogram dictionary `compute_lsps` produces on `st4` with
`min_per = 10`, `delta_f = 1/100`. -/
def lsp4 : LspEntry × List (Tel × LspEntry) :=
  ((compute_lsps lsZero lsWZero st4 10 (1/100)).toOption).getD default

/-- C4 counterexample: the claim says the frequency grid of every
analyzed series starts at `1/(1.5 × time_baseline)` of *that* series, but
for an activity series of baseline 50 (claimed start 1/75) analyzed
together with an RV series of baseline 100, the code builds a single grid
from the RV baseline: the grid carrying the activity power starts at
1/150, not 1/75. -/
theorem c4_counterexample :
    compute_lsps lsZero lsWZero st4 10 (1/100) = .ok lsp4 ∧
    lsp4.1.frequency.head? = some (1/150) ∧
    1 / (1.5 * ptpQ ((st4.S_index_data.getD []).map (fun p => p.2.jd))) = (1/75 : ℚ) ∧
    (1/150 : ℚ) ≠ 1/75 := by
  refine ⟨rfl, ?_, by norm_num [st4, sv4, ptpQ, max_def, min_def], by norm_num⟩
  show (arangeQ (1 / (1.5 * ptpQ (rv4.map (fun p => p.2.jd)))) (1 / 10) (1/100)).head? =
    some (1/150)
  have h2 : (1 : ℚ) / (1.5 * ptpQ (rv4.map (fun p => p.2.jd))) = 1/150 := by
    norm_num [rv4, ptpQ, max_def, min_def]
  rw [h2]
  exact arangeQ_head (1/150) (1/10) (1/100) (by norm_num) (by norm_num)

/-- C4 (amended): every frequency grid `compute_lsps` builds is derived
from the *RV* series' time baseline — the full RV series for the combined
entry and the per-instrument RV rows for each instrument entry — and that
same grid is shared by the RV power, the activity power and the window
function of the entry; the activity series' own baseline is never used. -/
theorem c4_grids_from_rv_baseline (lsP : List (ℚ × ℚ × ℚ) → List ℚ → List ℚ)
    (lsW : List ℚ → List ℚ → List ℚ) (data : StarData) (rvs : RvDf) (svals : SindDf)
    (min_per delta_f : ℚ) (res : LspEntry × List (Tel × LspEntry))
    (h1 : data.rv_data = some rvs) (h2 : data.S_index_data = some svals)
    (h3 : compute_lsps lsP lsW data min_per delta_f = .ok res) :
    res.1.frequency =
      arangeQ (1 / (1.5 * ptpQ (rvs.map (fun p => p.2.jd)))) (1 / min_per) delta_f ∧
    ∀ e ∈ res.2, e.2.frequency =
      arangeQ (1 / (1.5 * ptpQ ((rvs.filter (fun p => p.2.tel = e.1)).map (fun p => p.2.jd))))
        (1 / min_per) delta_f := by
  unfold compute_lsps at h3
  rw [h1, h2] at h3
  injection h3 with h'
  subst h'
  constructor
  · rfl
  · intro e he
    obtain ⟨tel, _htel, hmap⟩ := List.mem_map.mp he
    subst hmap
    rfl

/-- C4 witness: the amended grid description instantiated on `st4`. -/
theorem c4_grids_from_rv_baseline_witness :
    lsp4.1.frequency =
      arangeQ (1 / (1.5 * ptpQ (rv4.map (fun p => p.2.jd)))) (1 / 10) (1/100) ∧
    ∀ e ∈ lsp4.2, e.2.frequency =
      arangeQ (1 / (1.5 * ptpQ ((rv4.filter (fun p => p.2.tel = e.1)).map (fun p => p.2.jd))))
        (1 / 10) (1/100) :=
  c4_grids_from_rv_baseline lsZero lsWZero st4 rv4 sv4 10 (1/100) lsp4 rfl rfl rfl

/-! ### C8 — activity-index conversion formula -/

/-- C8: for every raw proxy value `x`, color index `c` and subgiant flag,
the conversion returns
`S = (x + 10^(-4.898 + 1.918 c² - 2.893 c³)) / (1.34e-4 · 10^(D c³ + E c² + F c + G))`
with `(D,E,F,G) = (0.25, -1.33, 0.43, 0.24)` on the main-sequence branch
and `(-0.066, -0.25, -0.49, 0.45)` on the subgiant branch. -/
theorem c8_convert_rhkp_to_sindex (x c : ℝ) (sg : Bool) :
    convert_rhkp_to_sindex x c sg =
      (x + (10:ℝ) ^ (-4.898 + 1.918 * c ^ 2 - 2.893 * c ^ 3)) /
        ((1.34e-4 : ℝ) * (10:ℝ) ^ ((if sg then (-0.066:ℝ) else 0.25) * c ^ 3 +
          (if sg then (-0.25:ℝ) else -1.33) * c ^ 2 +
          (if sg then (-0.49:ℝ) else 0.43) * c + (if sg then (0.45:ℝ) else 0.24))) := by
  cases sg <;> simp only [convert_rhkp_to_sindex, if_true, if_false, Bool.false_eq_true,
    Bool.true_eq_false, reduceIte] <;> ring_nf

/-! ### Concrete power arrays for the FAP claims

For a length-7 array the percentile slice is
`power_sorted[int(0.5*7) : int(0.95*7)] = power_sorted[3:6]` (the float
computations `int(3.5)` and `int(6.65)` agree with the exact ones), and
for a length-6 array it is `power_sorted[3:5]`. -/

/-- 4 zeros and 3 ones: crop [0,1,1], histogram counts increasing with
power, hence a *positive* fitted slope. -/
def power7 : List ℚ := [0, 0, 0, 0, 1, 1, 1]

/-- 5 zeros and 2 ones: crop [0,0,1], histogram counts decreasing with
power, hence a *negative* fitted slope. -/
def powerNeg7 : List ℚ := [0, 0, 0, 0, 0, 1, 1]

/-- 7 equal values: the cropped, shifted data is constant, numpy expands
the histogram range and exactly one bin is non-empty. -/
def pOnes7 : List ℚ := [1, 1, 1, 1, 1, 1, 1]

/-- 3 zeros and 3 ones: crop [1,1], again a single non-empty bin. -/
def power6 : List ℚ := [0, 0, 0, 1, 1, 1]

theorem power7_crop : power_crop power7 = [0, 1, 1] := by
  have hs : power_sorted power7 = [0, 0, 0, 0, 1, 1, 1] := by
    norm_num [power7, power_sorted, List.insertionSort, List.orderedInsert]
  unfold power_crop
  rw [hs]
  norm_num [power7]

theorem powerNeg7_crop : power_crop powerNeg7 = [0, 0, 1] := by
  have hs : power_sorted powerNeg7 = [0, 0, 0, 0, 0, 1, 1] := by
    norm_num [powerNeg7, power_sorted, List.insertionSort, List.orderedInsert]
  unfold power_crop
  rw [hs]
  norm_num [powerNeg7]

theorem pOnes7_crop : power_crop pOnes7 = [1, 1, 1] := by
  have hs : power_sorted pOnes7 = [1, 1, 1, 1, 1, 1, 1] := by
    norm_num [pOnes7, power_sorted, List.insertionSort, List.orderedInsert]
  unfold power_crop
  rw [hs]
  norm_num [pOnes7]

theorem power6_crop : power_crop power6 = [1, 1] := by
  have hs : power_sorted power6 = [0, 0, 0, 1, 1, 1] := by
    norm_num [power6, power_sorted, List.insertionSort, List.orderedInsert]
  unfold power_crop
  rw [hs]
  norm_num [power6]

theorem power7_med : power_med power7 = 0 := by
  rw [power_med, power7_crop]
  rfl

theorem powerNeg7_med : power_med powerNeg7 = 0 := by
  rw [power_med, powerNeg7_crop]
  rfl

theorem power7_hist_data : crop_hist_data power7 = [0, 1, 1] := by
  rw [crop_hist_data, power7_crop, power7_med]
  norm_num

theorem powerNeg7_hist_data : crop_hist_data powerNeg7 = [0, 0, 1] := by
  rw [crop_hist_data, powerNeg7_crop, powerNeg7_med]
  norm_num

theorem pOnes7_hist_data : crop_hist_data pOnes7 = [0, 0, 0] := by
  rw [crop_hist_data, pOnes7_crop]
  have : power_med pOnes7 = 1 := by
    rw [power_med, pOnes7_crop]
    rfl
  rw [this]
  norm_num

theorem power6_hist_data : crop_hist_data power6 = [0, 0] := by
  rw [crop_hist_data, power6_crop]
  have : power_med power6 = 1 := by
    rw [power_med, power6_crop]
    rfl
  rw [this]
  norm_num

theorem hist_edges_011 : hist_edges [0, 1, 1] =
    [0, 1/10, 1/5, 3/10, 2/5, 1/2, 3/5, 7/10, 4/5, 9/10, 1] := by
  norm_num [hist_edges, List.foldl, min_def, max_def, List.range_succ]

theorem hist_edges_001 : hist_edges [0, 0, 1] =
    [0, 1/10, 1/5, 3/10, 2/5, 1/2, 3/5, 7/10, 4/5, 9/10, 1] := by
  norm_num [hist_edges, List.foldl, min_def, max_def, List.range_succ]

theorem hist_edges_000 : hist_edges [0, 0, 0] =
    [-(1/2), -(2/5), -(3/10), -(1/5), -(1/10), 0, 1/10, 1/5, 3/10, 2/5, 1/2] := by
  norm_num [hist_edges, List.foldl, min_def, max_def, List.range_succ]

theorem hist_edges_00 : hist_edges [0, 0] =
    [-(1/2), -(2/5), -(3/10), -(1/5), -(1/10), 0, 1/10, 1/5, 3/10, 2/5, 1/2] := by
  norm_num [hist_edges, List.foldl, min_def, max_def, List.range_succ]

theorem hist_bins_011 : hist_bins [0, 1, 1] =
    [(0, 1/10), (1/10, 1/5), (1/5, 3/10), (3/10, 2/5), (2/5, 1/2), (1/2, 3/5),
     (3/5, 7/10), (7/10, 4/5), (4/5, 9/10), (9/10, 1)] := by
  rw [hist_bins, hist_edges_011]
  rfl

theorem hist_bins_001 : hist_bins [0, 0, 1] =
    [(0, 1/10), (1/10, 1/5), (1/5, 3/10), (3/10, 2/5), (2/5, 1/2), (1/2, 3/5),
     (3/5, 7/10), (7/10, 4/5), (4/5, 9/10), (9/10, 1)] := by
  rw [hist_bins, hist_edges_001]
  rfl

theorem hist_bins_000 : hist_bins [0, 0, 0] =
    [(-(1/2), -(2/5)), (-(2/5), -(3/10)), (-(3/10), -(1/5)), (-(1/5), -(1/10)),
     (-(1/10), 0), (0, 1/10), (1/10, 1/5), (1/5, 3/10), (3/10, 2/5), (2/5, 1/2)] := by
  rw [hist_bins, hist_edges_000]
  rfl

theorem hist_bins_00 : hist_bins [0, 0] =
    [(-(1/2), -(2/5)), (-(2/5), -(3/10)), (-(3/10), -(1/5)), (-(1/5), -(1/10)),
     (-(1/10), 0), (0, 1/10), (1/10, 1/5), (1/5, 3/10), (3/10, 2/5), (2/5, 1/2)] := by
  rw [hist_bins, hist_edges_00]
  rfl

theorem hist_counts_011 : hist_counts [0, 1, 1] = [1, 0, 0, 0, 0, 0, 0, 0, 0, 2] := by
  rw [hist_counts, hist_bins_011]
  norm_num [List.enum, List.enumFrom, List.filter]

theorem hist_counts_001 : hist_counts [0, 0, 1] = [2, 0, 0, 0, 0, 0, 0, 0, 0, 1] := by
  rw [hist_counts, hist_bins_001]
  norm_num [List.enum, List.enumFrom, List.filter]

theorem hist_counts_000 : hist_counts [0, 0, 0] = [0, 0, 0, 0, 0, 3, 0, 0, 0, 0] := by
  rw [hist_counts, hist_bins_000]
  norm_num [List.enum, List.enumFrom, List.filter]

theorem hist_counts_00 : hist_counts [0, 0] = [0, 0, 0, 0, 0, 2, 0, 0, 0, 0] := by
  rw [hist_counts, hist_bins_00]
  norm_num [List.enum, List.enumFrom, List.filter]

theorem hist_centers_011 : hist_centers [0, 1, 1] =
    [1/20, 3/20, 1/4, 7/20, 9/20, 11/20, 13/20, 3/4, 17/20, 19/20] := by
  rw [hist_centers, hist_bins_011]
  norm_num

theorem hist_centers_001 : hist_centers [0, 0, 1] =
    [1/20, 3/20, 1/4, 7/20, 9/20, 11/20, 13/20, 3/4, 17/20, 19/20] := by
  rw [hist_centers, hist_bins_001]
  norm_num

theorem hist_centers_000 : hist_centers [0, 0, 0] =
    [-(9/20), -(7/20), -(1/4), -(3/20), -(1/20), 1/20, 3/20, 1/4, 7/20, 9/20] := by
  rw [hist_centers, hist_bins_000]
  norm_num

theorem hist_centers_00 : hist_centers [0, 0] =
    [-(9/20), -(7/20), -(1/4), -(3/20), -(1/20), 1/20, 3/20, 1/4, 7/20, 9/20] := by
  rw [hist_centers, hist_bins_00]
  norm_num

theorem power7_bins : finite_bins power7 = [(1/20, 1), (19/20, 2)] := by
  rw [finite_bins, power7_hist_data, hist_centers_011, hist_counts_011]
  norm_num [List.filter]

theorem powerNeg7_bins : finite_bins powerNeg7 = [(1/20, 2), (19/20, 1)] := by
  rw [finite_bins, powerNeg7_hist_data, hist_centers_001, hist_counts_001]
  norm_num [List.filter]

theorem pOnes7_bins : finite_bins pOnes7 = [(1/20, 3)] := by
  rw [finite_bins, pOnes7_hist_data, hist_centers_000, hist_counts_000]
  norm_num [List.filter]

theorem power6_bins : finite_bins power6 = [(1/20, 2)] := by
  rw [finite_bins, power6_hist_data, hist_centers_00, hist_counts_00]
  norm_num [List.filter]

theorem power7_crop_ne : power_crop power7 ≠ [] := by
  rw [power7_crop]
  simp

theorem power7_bins_ne : finite_bins power7 ≠ [] := by
  rw [power7_bins]
  simp

theorem powerNeg7_crop_ne : power_crop powerNeg7 ≠ [] := by
  rw [powerNeg7_crop]
  simp

theorem powerNeg7_bins_ne : finite_bins powerNeg7 ≠ [] := by
  rw [powerNeg7_bins]
  simp

theorem pOnes7_crop_ne : power_crop pOnes7 ≠ [] := by
  rw [pOnes7_crop]
  simp

theorem pOnes7_bins_ne : finite_bins pOnes7 ≠ [] := by
  rw [pOnes7_bins]
  simp

theorem power6_crop_ne : power_crop power6 ≠ [] := by
  rw [power6_crop]
  simp

theorem power6_bins_ne : finite_bins power6 ≠ [] := by
  rw [power6_bins]
  simp

theorem power7_fit : fit_points power7 = [((1/20 : ℝ), 0), ((19/20 : ℝ), Real.logb 10 2)] := by
  rw [fit_points, power7_bins]
  norm_num [Real.logb_one]

theorem powerNeg7_fit :
    fit_points powerNeg7 = [((1/20 : ℝ), Real.logb 10 2), ((19/20 : ℝ), 0)] := by
  rw [fit_points, powerNeg7_bins]
  norm_num [Real.logb_one]

theorem power7_polyfit : polyfit_deg1 (fit_points power7) =
    some ((10/9) * Real.logb 10 2, -(1/18) * Real.logb 10 2) := by
  rw [power7_fit]
  simp only [polyfit_deg1, List.length_cons, List.length_nil, List.map_cons, List.map_nil,
    List.sum_cons, List.sum_nil, Option.some.injEq, Prod.mk.injEq]
  norm_num
  constructor <;> ring

theorem powerNeg7_polyfit : polyfit_deg1 (fit_points powerNeg7) =
    some (-(10/9) * Real.logb 10 2, (19/18) * Real.logb 10 2) := by
  rw [powerNeg7_fit]
  simp only [polyfit_deg1, List.length_cons, List.length_nil, List.map_cons, List.map_nil,
    List.sum_cons, List.sum_nil, Option.some.injEq, Prod.mk.injEq]
  norm_num
  constructor <;> ring

theorem power7_A : fap_A power7 = -((10/9) * Real.log 2) := by
  rw [fap_A, slope_a, power7_polyfit]
  simp only [Option.getD_some]
  have h10 : Real.log 10 ≠ 0 :=
    Real.log_ne_zero_of_pos_of_ne_one (by norm_num) (by norm_num)
  rw [Real.logb]
  field_simp
  ring

theorem powerNeg7_slope_neg : slope_a powerNeg7 < 0 := by
  rw [slope_a, powerNeg7_polyfit]
  simp only [Option.getD_some]
  have hl : 0 < Real.logb 10 2 := Real.logb_pos (by norm_num) (by norm_num)
  nlinarith

theorem power7_thresh (fap : ℝ) :
    power_thresh_at power7 fap = Real.log (fap / 7) / ((10/9) * Real.log 2) := by
  unfold power_thresh_at
  rw [compute_fap_thresh_ok power7 fap power7_crop_ne power7_bins_ne, power7_A, power7_med]
  norm_num [power7]

/-! ### C5 — the FAP calibration formulas -/

/-- C5: for every power array with a non-empty percentile slice and at
least one finite histogram bin, `compute_fap_thresh` returns the power
threshold `ln(fap / N) / (-A) + m` and the minimum attainable FAP
`N · exp(-A · (max_power - m))`, where `N` is the number of elements of
the power array, `m` (`power_med`) is the first value of the
50th-to-95th-percentile slice of the ascending-sorted powers, and
`A = -a·ln 10` (`fap_A`) with `a` (`slope_a`) the least-squares slope of
the base-10 log counts of the 10-bin histogram of `(cropped power - m)`
over the finite points. -/
theorem c5_fap_formulas (power : List ℚ) (fap : ℝ)
    (h1 : power_crop power ≠ []) (h2 : finite_bins power ≠ []) :
    compute_fap_thresh power fap =
      .ok (Real.log (fap / (power.length : ℝ)) / (-(fap_A power)) + (power_med power : ℝ),
           (power.length : ℝ) *
             Real.exp (-(fap_A power) * ((max_power power : ℝ) - (power_med power : ℝ)))) := by
  rw [compute_fap_thresh_ok power fap h1 h2,
    mul_comm (Real.exp (-(fap_A power) * ((max_power power : ℝ) - (power_med power : ℝ))))
      ((power.length : ℝ))]

/-- C5 witness: the formulas instantiated on the concrete array
`power6`, whose slice and finite-bin hypotheses hold by computation. -/
theorem c5_fap_formulas_witness :
    power_crop power6 ≠ [] ∧ finite_bins power6 ≠ [] ∧
    compute_fap_thresh power6 (1/100) =
      .ok (Real.log ((1/100) / (power6.length : ℝ)) / (-(fap_A power6)) + (power_med power6 : ℝ),
           (power6.length : ℝ) *
             Real.exp (-(fap_A power6) * ((max_power power6 : ℝ) - (power_med power6 : ℝ)))) :=
  ⟨power6_crop_ne, power6_bins_ne,
   c5_fap_formulas power6 (1/100) power6_crop_ne power6_bins_ne⟩

/-! ### C6 — threshold monotonicity in the requested FAP -/

/-- C6 counterexample: on the array `power7` the fitted slope is
positive (`A < 0`), and the power threshold at FAP 0.01 is *strictly
greater* than the threshold at FAP 0.001 — the claimed monotonicity
`threshold(0.01) ≤ threshold(0.001)` fails (both calls succeed). -/
theorem c6_counterexample :
    (compute_fap_thresh power7 (1/100)).toOption.isSome = true ∧
    (compute_fap_thresh power7 (1/1000)).toOption.isSome = true ∧
    ¬ (power_thresh_at power7 (1/100) ≤ power_thresh_at power7 (1/1000)) := by
  refine ⟨?_, ?_, ?_⟩
  · rw [compute_fap_thresh_ok power7 (1/100) power7_crop_ne power7_bins_ne]
    rfl
  · rw [compute_fap_thresh_ok power7 (1/1000) power7_crop_ne power7_bins_ne]
    rfl
  · rw [power7_thresh, power7_thresh, not_le]
    have hc : (0:ℝ) < (10/9) * Real.log 2 :=
      mul_pos (by norm_num) (Real.log_pos (by norm_num))
    rw [div_lt_div_iff_of_pos_right hc]
    apply Real.log_lt_log (by norm_num)
    norm_num

/-- C6 (amended): for a fixed power array whose tail fit yields a
*negative* slope (positive decay rate `A`, the case the calibration is
designed for), the power threshold is non-decreasing as the requested FAP
decreases; for arrays whose histogram counts grow with power the fitted
slope is positive and the threshold moves the other way. -/
theorem c6_threshold_monotone (power : List ℚ) (fap1 fap2 : ℝ)
    (h1 : power_crop power ≠ []) (h2 : finite_bins power ≠ [])
    (h3 : slope_a power < 0) (h4 : 0 < fap1) (h5 : fap1 ≤ fap2) :
    power_thresh_at power fap2 ≤ power_thresh_at power fap1 := by
  have hN : (0:ℝ) < (power.length : ℝ) := by
    have hne := power_crop_ne_nil_of power h1
    have hpos : 0 < power.length := List.length_pos.mpr hne
    exact_mod_cast hpos
  have hA : 0 < fap_A power := by
    unfold fap_A
    exact mul_pos (neg_pos.mpr h3) (Real.log_pos (by norm_num))
  have e1 : power_thresh_at power fap1 =
      Real.log (fap1 / (power.length : ℝ)) / (-(fap_A power)) + (power_med power : ℝ) := by
    unfold power_thresh_at
    rw [compute_fap_thresh_ok power fap1 h1 h2]
  have e2 : power_thresh_at power fap2 =
      Real.log (fap2 / (power.length : ℝ)) / (-(fap_A power)) + (power_med power : ℝ) := by
    unfold power_thresh_at
    rw [compute_fap_thresh_ok power fap2 h1 h2]
  rw [e1, e2]
  apply add_le_add_right
  have hneg : -(fap_A power) < 0 := by linarith
  rw [div_le_div_right_of_neg hneg]
  apply Real.log_le_log (by positivity)
  exact div_le_div_of_nonneg_right h5 hN.le

/-- C6 witness: on `powerNeg7` the fitted slope is negative, and the
threshold at FAP 0.01 is at most the threshold at FAP 0.001. -/
theorem c6_threshold_monotone_witness :
    power_thresh_at powerNeg7 (1/100) ≤ power_thresh_at powerNeg7 (1/1000) :=
  c6_threshold_monotone powerNeg7 (1/1000) (1/100) powerNeg7_crop_ne powerNeg7_bins_ne
    powerNeg7_slope_neg (by norm_num) (by norm_num)

/-! ### C7 — behavior with fewer than 2 finite histogram bins -/

/-- C7 counterexample: on the constant array `pOnes7` exactly one
histogram bin has a finite log count (fewer than 2), yet the calibration
does *not* fail: `np.polyfit` silently returns its minimum-norm 1-point
fit and `compute_fap_thresh` returns a threshold (there is no
`CalibrationError` anywhere in the code). -/
theorem c7_counterexample :
    (finite_bins pOnes7).length = 1 ∧
    (compute_fap_thresh pOnes7 (1/100)).toOption.isSome = true := by
  constructor
  · rw [pOnes7_bins]
    rfl
  · rw [compute_fap_thresh_ok pOnes7 (1/100) pOnes7_crop_ne pOnes7_bins_ne]
    rfl

/-- C7 (amended): for every power array with a non-empty percentile
slice on which exactly one histogram bin has a finite log count, the FAP
calibration does not fail: `np.polyfit` falls back to the degenerate
minimum-norm single-point fit and a threshold is returned silently. -/
theorem c7_single_bin_no_error (power : List ℚ) (fap : ℝ)
    (h1 : power_crop power ≠ []) (h2 : (finite_bins power).length = 1) :
    (compute_fap_thresh power fap).toOption.isSome = true := by
  have h2' : finite_bins power ≠ [] := by
    intro hnil
    rw [hnil] at h2
    simp at h2
  rw [compute_fap_thresh_ok power fap h1 h2']
  rfl

/-- C7 witness: the amended claim at the concrete constant array. -/
theorem c7_single_bin_no_error_witness :
    (compute_fap_thresh pOnes7 (1/1000)).toOption.isSome = true :=
  c7_single_bin_no_error pOnes7 (1/1000) pOnes7_crop_ne (by rw [pOnes7_bins]; rfl)

end Raphs
